import Mathlib

/-
Verification of the StarReach stargazer ingestion and enrichment pipeline.

The Python sources are shallowly embedded as follows:
  * a Python dict queried with d.get(k) is a total function String -> Option String
    (a missing key and a key stored with value None both read back as none,
    exactly as dict.get does);
  * extraction results (dicts built with a fixed literal key set and iterated
    with .items()) are association lists List (String x Option String) in
    insertion order;
  * HTTP traffic is passed in as data: an Option HttpResponse, where none is a
    requests.exceptions.RequestException and some r carries the status code,
    parsed JSON body, Link header and rate-limit headers;
  * the wall clock time.time() is an integer number of seconds.
-/

/-! ## Dictionary model -/

/-- A Python dict of string keys read through dict.get: a missing key reads as
none, exactly like a key stored with value None. -/
abbrev PyDict := String → Option String

/-- Python truthiness of an Optional[str] value: None and the empty string are
falsy, every other string is truthy. -/
def truthy : Option String → Bool
  | none => false
  | some s => s != ""

/-- The assignment d[k] = v on a dict modelled as a function. -/
def dictSet (u : PyDict) (k : String) (v : Option String) : PyDict :=
  fun q => if q = k then v else u q

/-- The statement user.update(res) for an items list res: every key of res is
assigned in insertion order. -/
def dictUpdate (u : PyDict) (res : List (String × Option String)) : PyDict :=
  res.foldl (fun acc kv => dictSet acc kv.1 kv.2) u

/-- The merge loop of process_user (src/main.py lines 71-76):
for key, value in res.items(): if value: user[key] = value.
A value is written over the current one only when it is truthy. -/
def mergeScraped (u : PyDict) (res : List (String × Option String)) : PyDict :=
  res.foldl (fun acc kv => if truthy kv.2 then dictSet acc kv.1 kv.2 else acc) u

/-- Reading key k of an association-list dict (first entry wins; absent reads
as none, like dict.get). -/
def dlookup (d : List (String × Option String)) (k : String) : Option String :=
  match d.find? (fun kv => kv.1 == k) with
  | some kv => kv.2
  | none => none

/-! ## GitHubClient: page fetch, rate-limit wait, pagination step
(src/github_client.py) -/

/-- One HTTP response as seen by fetch_stargazers_page: status code, parsed
JSON list of user dicts, the next link of the Link header, and the two
rate-limit headers (already parsed to integers; a missing header is none). -/
structure HttpResponse where
  status : Nat
  users : List PyDict
  nextLink : Option String
  retryAfterHeader : Option Int
  rateLimitReset : Option Int

/-- The sleep-time computation of the 403/429 branch of fetch_stargazers_page
(src/github_client.py lines 47-54): Retry-After defaults to 60, the reset
header defaults to 0 and is only consulted when nonzero, in which case the wait
is max(retry_after, reset - now + 1). -/
def rateLimitWait (retryAfterHeader rateLimitReset : Option Int) (now : Int) : Int :=
  if rateLimitReset.getD 0 ≠ 0 then
    max (retryAfterHeader.getD 60) (rateLimitReset.getD 0 - now + 1)
  else
    retryAfterHeader.getD 60

/-- GitHubClient.fetch_stargazers_page (src/github_client.py lines 29-61),
as a function of the incoming response. A RequestException (resp = none)
returns ([], url, 5); a 200 returns the users and the next link with wait 0; a
403/429 returns no users, the same url and the computed wait; any other status
returns ([], None, 0). -/
def fetch_stargazers_page (url : String) (resp : Option HttpResponse) (now : Int) :
    List PyDict × Option String × Int :=
  match resp with
  | none => ([], some url, 5)
  | some r =>
    if r.status = 200 then (r.users, r.nextLink, 0)
    else if r.status = 403 ∨ r.status = 429 then
      ([], some url, rateLimitWait r.retryAfterHeader r.rateLimitReset now)
    else ([], none, 0)

/-- What the inner retry loop of GitHubClient.get_stargazers does with one
fetched page (src/github_client.py lines 72-101). -/
inductive PageAction where
  | sleepRetry (wait : Int) (url : String)
  | yieldUsers (users : List PyDict) (nextUrl : Option String)
  | finished

/-- One iteration of the inner while-loop of get_stargazers: a positive wait
sleeps and retries the same url; an empty user list ends pagination; otherwise
the users are yielded and the walk moves to the next link. -/
def pageStep (url : String) (resp : Option HttpResponse) (now : Int) : PageAction :=
  let r := fetch_stargazers_page url resp now
  if 0 < r.2.2 then PageAction.sleepRetry r.2.2 url
  else if r.1.isEmpty then PageAction.finished
  else PageAction.yieldUsers r.1 r.2.1

/-- One HTTP response as seen by get_user_details: status and parsed JSON
body. -/
structure DetailResponse where
  status : Nat
  json : List (String × Option String)

/-- GitHubClient.get_user_details (src/github_client.py lines 103-113), as a
function of the incoming response (none models a RequestException): the parsed
body on a 200, the empty dict otherwise. -/
def get_user_details (resp : Option DetailResponse) : List (String × Option String) :=
  match resp with
  | none => []
  | some r => if r.status = 200 then r.json else []

/-! ## A backtracking matcher for the scraper patterns (src/scraper.py lines 8-14)

Every pattern compiled by ProfileScraper is a sequence of: a literal, an
ordered alternation of literals, an optional ordered alternation of literals,
a character class with a + or a bounded-below repetition, or a single capturing
group over a character class with +. The matcher below implements exactly the
semantics Python re gives these constructs: atoms are tried left to right,
quantifiers are greedy with backtracking, alternations are tried in written
order, and findall scans positions left to right taking non-overlapping
matches. -/

/-- One atom of a scraper pattern. -/
inductive Atom where
  | lit : List Char → Atom
  | alts : List (List Char) → Atom
  | optAlts : List (List Char) → Atom
  | cls : (Char → Bool) → Atom
  | clsGE : Nat → (Char → Bool) → Atom
  | grp : (Char → Bool) → Atom

/-- Result of matching a pattern at the head of a suffix: the consumed
characters, the capture of the (at most one) group, and the remaining
suffix. -/
structure MRes where
  consumed : List Char
  group : Option (List Char)
  rest : List Char
deriving DecidableEq

/-- Length of the maximal prefix run of characters satisfying p. -/
def clsRun (p : Char → Bool) : List Char → Nat
  | [] => 0
  | c :: cs => if p c then clsRun p cs + 1 else 0

/-- Prepend consumed characters to a match result. -/
def consPre (l : List Char) (r : MRes) : MRes :=
  ⟨l ++ r.consumed, r.group, r.rest⟩

/-- Greedy backtracking over the number of characters a class quantifier
consumes: try hi, hi-1, ..., lo and return the first success. -/
def tryCounts (lo : Nat) (f : Nat → Option MRes) : Nat → Option MRes
  | 0 => if lo = 0 then f 0 else none
  | k + 1 =>
    if k + 1 < lo then none
    else
      match f (k + 1) with
      | some r => some r
      | none => tryCounts lo f k

/-- Match a list of atoms at the head of a suffix, with fuel one larger than
the number of atoms (each step consumes one atom, so the fuel never runs
out). Greedy quantifiers backtrack through tryCounts; alternations are tried
in order and backtrack through findSome?. -/
def matchA : Nat → List Atom → List Char → Option MRes
  | 0, _, _ => none
  | _ + 1, [], s => some ⟨[], none, s⟩
  | fuel + 1, Atom.lit l :: as, s =>
    if l.isPrefixOf s then (matchA fuel as (s.drop l.length)).map (consPre l) else none
  | fuel + 1, Atom.alts ls :: as, s =>
    ls.findSome? (fun l =>
      if l.isPrefixOf s then (matchA fuel as (s.drop l.length)).map (consPre l) else none)
  | fuel + 1, Atom.optAlts ls :: as, s =>
    match ls.findSome? (fun l =>
      if l.isPrefixOf s then (matchA fuel as (s.drop l.length)).map (consPre l) else none) with
    | some r => some r
    | none => matchA fuel as s
  | fuel + 1, Atom.cls p :: as, s =>
    tryCounts 1 (fun k => (matchA fuel as (s.drop k)).map (consPre (s.take k))) (clsRun p s)
  | fuel + 1, Atom.clsGE n p :: as, s =>
    tryCounts n (fun k => (matchA fuel as (s.drop k)).map (consPre (s.take k))) (clsRun p s)
  | fuel + 1, Atom.grp p :: as, s =>
    tryCounts 1 (fun k => (matchA fuel as (s.drop k)).map
      (fun r => ⟨s.take k ++ r.consumed, some (s.take k), r.rest⟩)) (clsRun p s)

/-- Match a pattern at the head of a suffix. -/
def matchAtoms (re : List Atom) (s : List Char) : Option MRes :=
  matchA (re.length + 1) re s

/-- Python re.findall: scan positions left to right; at a match, record it and
continue after its end (advancing one position on an empty match, as Python
does); otherwise advance one position. The fuel length+1 covers every step. -/
def findallAux (re : List Atom) : Nat → List Char → List (List Char × Option (List Char))
  | 0, _ => []
  | fuel + 1, s =>
    match matchAtoms re s with
    | some r =>
      (r.consumed, r.group) ::
        (if r.consumed.isEmpty then
          match s with
          | [] => []
          | _ :: s2 => findallAux re fuel s2
        else findallAux re fuel r.rest)
    | none =>
      match s with
      | [] => []
      | _ :: s2 => findallAux re fuel s2

/-- All matches of a pattern over a character list, in document order. -/
def findall (re : List Atom) (s : List Char) : List (List Char × Option (List Char)) :=
  findallAux re (s.length + 1) s

/-! ## The seven scraper patterns -/

/-- Characters of the local part class of the email pattern. -/
def emailLocalChar (c : Char) : Bool :=
  c.isAlphanum || c == '.' || c == '_' || c == '%' || c == '+' || c == '-'

/-- Characters of the domain class of the email pattern. -/
def emailDomainChar (c : Char) : Bool :=
  c.isAlphanum || c == '.' || c == '-'

/-- Characters of the linkedin handle class. -/
def linkedinChar (c : Char) : Bool := c.isAlphanum || c == '-'

/-- Characters of the twitter handle class. -/
def twitterChar (c : Char) : Bool := c.isAlphanum || c == '_'

/-- Characters of the facebook handle class. -/
def facebookChar (c : Char) : Bool := c.isAlphanum || c == '.' || c == '_'

/-- Characters of the instagram handle class. -/
def instagramChar (c : Char) : Bool := c.isAlphanum || c == '_' || c == '.'

/-- Characters of the youtube handle class. -/
def youtubeChar (c : Char) : Bool := c.isAlphanum || c == '_' || c == '-'

/-- Characters of the bluesky handle class. -/
def blueskyChar (c : Char) : Bool := c.isAlphanum || c == '.' || c == '-'

/-- The email pattern of src/scraper.py line 8. -/
def email_regex : List Atom :=
  [Atom.cls emailLocalChar, Atom.lit ['@'], Atom.cls emailDomainChar, Atom.lit ['.'],
   Atom.clsGE 2 Char.isAlpha]

/-- The linkedin pattern of src/scraper.py line 9. -/
def linkedin_regex : List Atom :=
  [Atom.lit (("linkedin.com/in/").data), Atom.cls linkedinChar]

/-- The twitter pattern of src/scraper.py line 10. -/
def twitter_regex : List Atom :=
  [Atom.alts [("twitter.com").data, ("x.com").data], Atom.lit ['/'], Atom.grp twitterChar]

/-- The facebook pattern of src/scraper.py line 11. -/
def facebook_regex : List Atom :=
  [Atom.lit (("facebook.com/").data), Atom.grp facebookChar]

/-- The instagram pattern of src/scraper.py line 12. -/
def instagram_regex : List Atom :=
  [Atom.lit (("instagram.com/").data), Atom.grp instagramChar]

/-- The youtube pattern of src/scraper.py line 13. -/
def youtube_regex : List Atom :=
  [Atom.lit (("youtube.com/").data),
   Atom.optAlts [("c/").data, ("channel/").data, ("user/").data, ("@").data],
   Atom.grp youtubeChar]

/-- The bluesky pattern of src/scraper.py line 14. -/
def bluesky_regex : List Atom :=
  [Atom.lit (("bsky.app/profile/").data), Atom.grp blueskyChar]

/-! ## ProfileScraper.extract_from_text (src/scraper.py lines 16-55) -/

/-- The dict keys used by the scraper and the merge code. -/
def kScrapedEmail : String := "scraped_email"

/-- Key of the linkedin field. -/
def kScrapedLinkedin : String := "scraped_linkedin"

/-- Key of the twitter field. -/
def kScrapedTwitter : String := "scraped_twitter"

/-- Key of the facebook field. -/
def kScrapedFacebook : String := "scraped_facebook"

/-- Key of the instagram field. -/
def kScrapedInstagram : String := "scraped_instagram"

/-- Key of the youtube field. -/
def kScrapedYoutube : String := "scraped_youtube"

/-- Key of the bluesky field. -/
def kScrapedBluesky : String := "scraped_bluesky"

/-- Key of the bio field of a user dict. -/
def kBio : String := "bio"

/-- Key of the blog field of a user dict. -/
def kBlog : String := "blog"

/-- Key of the profile page url field of a user dict. -/
def kHtmlUrl : String := "html_url"

/-- Key of the login field of a user dict. -/
def kLogin : String := "login"

/-- Key of the api url field of a user dict. -/
def kUrl : String := "url"

/-- Python findall for the patterns without a group: the whole matches. -/
def re_findall_whole (re : List Atom) (t : String) : List String :=
  (findall re t.data).map (fun m => String.mk m.1)

/-- Python findall for the patterns with one group: the captures. -/
def re_findall_group (re : List Atom) (t : String) : List String :=
  (findall re t.data).map (fun m => String.mk (m.2.getD []))

/-- The dict literal of extract_from_text with every field still None. -/
def emptyContacts : List (String × Option String) :=
  [(kScrapedEmail, none), (kScrapedLinkedin, none), (kScrapedTwitter, none),
   (kScrapedFacebook, none), (kScrapedInstagram, none), (kScrapedYoutube, none),
   (kScrapedBluesky, none)]

/-- The linkedin value formatting of src/scraper.py line 43. -/
def linkedinFmtS (s : String) : String :=
  if s.startsWith ("http") then s else "https://www." ++ s

/-- The non-empty-text body of extract_from_text. Each statement
if xs: data[k] = f(xs[0]) over the None-initialised dict literal leaves the
value at none when the findall list is empty and stores f of its first
element otherwise, which is exactly head? mapped through f. -/
def extractBody (t : String) : List (String × Option String) :=
  [(kScrapedEmail, (re_findall_whole email_regex t).head?),
   (kScrapedLinkedin, (re_findall_whole linkedin_regex t).head?.map linkedinFmtS),
   (kScrapedTwitter, (re_findall_group twitter_regex t).head?.map
      (fun s => "https://x.com/" ++ s)),
   (kScrapedFacebook, (re_findall_group facebook_regex t).head?.map
      (fun s => "https://facebook.com/" ++ s)),
   (kScrapedInstagram, (re_findall_group instagram_regex t).head?.map
      (fun s => "https://instagram.com/" ++ s)),
   (kScrapedYoutube, (re_findall_group youtube_regex t).head?.map
      (fun s => "https://youtube.com/" ++ s)),
   (kScrapedBluesky, (re_findall_group bluesky_regex t).head?.map
      (fun s => "https://bsky.app/profile/" ++ s))]

/-- ProfileScraper.extract_from_text. The input is an Option so that the
falsy-text guard (if not text: return data) covers both the empty string and
an absent text, as it does in Python. -/
def extract_from_text : Option String → List (String × Option String)
  | none => emptyContacts
  | some t => if t = "" then emptyContacts else extractBody t

/-- The full-match formatting of the email field: the match itself. -/
def emailFmt (m : List Char × Option (List Char)) : String := String.mk m.1

/-- The formatting of the linkedin field applied to a raw match. -/
def linkedinFmt (m : List Char × Option (List Char)) : String :=
  linkedinFmtS (String.mk m.1)

/-- The formatting of the twitter field applied to a raw match. -/
def twitterFmt (m : List Char × Option (List Char)) : String :=
  "https://x.com/" ++ String.mk (m.2.getD [])

/-- The formatting of the facebook field applied to a raw match. -/
def facebookFmt (m : List Char × Option (List Char)) : String :=
  "https://facebook.com/" ++ String.mk (m.2.getD [])

/-- The formatting of the instagram field applied to a raw match. -/
def instagramFmt (m : List Char × Option (List Char)) : String :=
  "https://instagram.com/" ++ String.mk (m.2.getD [])

/-- The formatting of the youtube field applied to a raw match. -/
def youtubeFmt (m : List Char × Option (List Char)) : String :=
  "https://youtube.com/" ++ String.mk (m.2.getD [])

/-- The formatting of the bluesky field applied to a raw match. -/
def blueskyFmt (m : List Char × Option (List Char)) : String :=
  "https://bsky.app/profile/" ++ String.mk (m.2.getD [])

/-- A field value v of the extraction obeys the first-match rule for pattern
re with formatting fmt on text t: v is absent exactly when no position of the
text carries a match, and when i is the first matching position, v is the
formatted match found there. -/
def FieldFirstMatch (re : List Atom) (fmt : List Char × Option (List Char) → String)
    (t : String) (v : Option String) : Prop :=
  (v = none ↔ ∀ i, matchAtoms re (List.drop i t.data) = none)
  ∧ (∀ i r, matchAtoms re (List.drop i t.data) = some r →
      (∀ j, j < i → matchAtoms re (List.drop j t.data) = none) →
      v = some (fmt (r.consumed, r.group)))

/-! ## process_user (src/main.py lines 28-78) -/

/-- The seven extraction fields of one source, as a record: the scrape results
handed to the merge loop are always dicts of exactly this shape (the dict
literal of extract_from_text). -/
structure Contacts where
  scraped_email : Option String
  scraped_linkedin : Option String
  scraped_twitter : Option String
  scraped_facebook : Option String
  scraped_instagram : Option String
  scraped_youtube : Option String
  scraped_bluesky : Option String

/-- The items list of a Contacts record, in the insertion order of the
extract_from_text dict literal. -/
def Contacts.toDict (c : Contacts) : List (String × Option String) :=
  [(kScrapedEmail, c.scraped_email), (kScrapedLinkedin, c.scraped_linkedin),
   (kScrapedTwitter, c.scraped_twitter), (kScrapedFacebook, c.scraped_facebook),
   (kScrapedInstagram, c.scraped_instagram), (kScrapedYoutube, c.scraped_youtube),
   (kScrapedBluesky, c.scraped_bluesky)]

/-- The ProfileScraper interface as process_user consumes it: extract is
extract_from_text, and scrape url is the dict scrape_url returns for that url,
or none when scrape_url raises, in which case scrape_wrapper substitutes the
empty dict (src/main.py lines 62-67). -/
structure ScraperM where
  extract : Option String → List (String × Option String)
  scrape : String → Option (List (String × Option String))

/-- The concrete scraper: scrape_url renders the url and extracts from the
rendered page content (src/scraper.py lines 57-92); a render failure is the
raised exception. -/
def mkScraper (render : String → Option String) : ScraperM :=
  ⟨extract_from_text, fun url => (render url).map (fun c => extract_from_text (some c))⟩

/-- Step 1 of process_user (src/main.py lines 35-44): when the bio is truthy,
extract from it, and when that extraction found an email or a linkedin, write
the whole extraction dict over the user with user.update. -/
def bio_step (user : PyDict) (sc : ScraperM) : PyDict :=
  match user (kBio) with
  | some b =>
    if b != "" then
      let bc := sc.extract (some b)
      if truthy (dlookup bc (kScrapedEmail)) || truthy (dlookup bc (kScrapedLinkedin)) then
        dictUpdate user bc
      else user
    else user
  | none => user

/-- Step 2 of process_user (src/main.py lines 46-55): the urls to scrape, in
order: the blog when truthy, then the profile page when truthy. -/
def scrape_urls (user : PyDict) : List String :=
  (match user (kBlog) with
   | some b => if b != "" then [b] else []
   | none => []) ++
  (match user (kHtmlUrl) with
   | some h2 => if h2 != "" then [h2] else []
   | none => [])

/-- process_user (src/main.py lines 28-78): the bio step, then for each url in
order the scrape result (the empty dict when scrape_url raised) merged with
the truthy-overwrite loop. -/
def process_user (user : PyDict) (sc : ScraperM) : PyDict :=
  (scrape_urls (bio_step user sc)).foldl
    (fun acc url => mergeScraped acc ((sc.scrape url).getD [])) (bio_step user sc)

/-! ## The main admission loop and the per-user pipeline (src/main.py) -/

/-- The detail-fetch step of process_full_user (src/main.py lines 196-207):
when the user dict has an api url, fetch details there and, when the returned
dict is non-empty, write it over the user with update. The details oracle maps
the url to the dict get_user_details returned. -/
def details_step (details : String → List (String × Option String)) (raw : PyDict) : PyDict :=
  match raw (kUrl) with
  | some uu => if details uu = [] then raw else dictUpdate raw (details uu)
  | none => raw

/-- process_full_user (src/main.py lines 157-212): the detail fetch, then
process_user. -/
def process_full_user (details : String → List (String × Option String)) (sc : ScraperM)
    (raw : PyDict) : PyDict :=
  process_user (details_step details raw) sc

/-- The guard of src/main.py line 231: if args.limit and total_fetched >=
args.limit. A limit of None or 0 is falsy and never stops the loop. -/
def limitHit : Option Nat → Nat → Bool
  | some l, fetched => decide (l ≠ 0) && decide (l ≤ fetched)
  | none, _ => false

/-- The skip-on-sight test of src/main.py line 236:
user.get("login") in existing_usernames. A missing login reads as None, which
is never in a set of strings. -/
def loginSkip (existing : List String) (u : PyDict) : Bool :=
  match u (kLogin) with
  | some s => existing.contains s
  | none => false

/-- The admission loop of main (src/main.py lines 229-270) reduced to the
users it admits for processing, in listing order: stop once the limit is hit,
skip a user whose login is in the startup key set, admit everyone else
(fetched counts admissions only). -/
def mainEnqueue (existing : List String) (limit : Option Nat) :
    List PyDict → Nat → List PyDict
  | [], _ => []
  | u :: us, fetched =>
    if limitHit limit fetched then []
    else if loginSkip existing u then mainEnqueue existing limit us fetched
    else u :: mainEnqueue existing limit us (fetched + 1)

/-- One run of the pipeline over the listed users: every admitted user is
handed exactly once to process_full_user and the results are collected; there
is no retry queue anywhere in main. -/
def run_pipeline (existing : List String) (limit : Option Nat) (users : List PyDict)
    (details : String → List (String × Option String)) (sc : ScraperM) : List PyDict :=
  (mainEnqueue existing limit users 0).map (process_full_user details sc)

/-! ## save_progress (src/main.py lines 80-114) -/

/-- A persisted row: column name to cell, where none is an empty (NaN)
cell. -/
abbrev Row := List (String × Option String)

/-- The columns_map literal of save_progress (src/main.py lines 88-101). -/
def columns_map : List (String × String) :=
  [(("login"), ("Username")), (("name"), ("Name")), (("email"), ("GitHub Email")),
   (("scraped_email"), ("Scraped Email")), (("blog"), ("Website")),
   (("company"), ("Company")), (("location"), ("Location")),
   (("twitter_username"), ("Twitter (GitHub)")),
   (("scraped_twitter"), ("Twitter (Scraped)")),
   (("scraped_linkedin"), ("LinkedIn")),
   (("scraped_facebook"), ("Facebook")),
   (("scraped_instagram"), ("Instagram")),
   (("scraped_youtube"), ("YouTube")),
   (("scraped_bluesky"), ("Bluesky")),
   (("html_url"), ("GitHub Profile")),
   (("bio"), ("Bio"))]

/-- The export column name of a raw column under columns_map. -/
def renameOf (c : String) : String :=
  ((columns_map.find? (fun kv => kv.1 == c)).map Prod.snd).getD c

/-- Building new_df from the new user rows (src/main.py lines 85-105):
valid_cols keeps, in columns_map order, the raw columns present in at least
one new row; each row is then projected to those columns (a missing cell is
empty, as NaN) and the columns are renamed. -/
def convert_rows (new_users : List Row) : List Row :=
  let valid := (columns_map.map Prod.fst).filter
    (fun c => new_users.any (fun u => u.any (fun kv => kv.1 == c)))
  new_users.map (fun u => valid.map (fun c => (renameOf c, dlookup u c)))

/-- save_progress (src/main.py lines 80-114): pd.concat([base_df, new_df]) and
write: the existing rows first in their original order, then the converted new
rows in completion order. The code has no deduplication step. -/
def save_progress (base_df : List Row) (new_users : List Row) : List Row :=
  base_df ++ convert_rows new_users

/-- The Identity Key of a persisted row: its Username cell. -/
def rowKey (r : Row) : Option String := dlookup r (("Username"))

/-- The flush rule as the specification words it, for comparison with
save_progress: deduplicate by Identity Key keeping the first occurrence. -/
def dedupByKeyFirst (rows : List Row) : List Row :=
  (rows.foldl
    (fun (acc : List Row × List (Option String)) r =>
      if acc.2.contains (rowKey r) then acc else (acc.1 ++ [r], rowKey r :: acc.2))
    ([], [])).1

/-! ## Concrete fixtures used by witnesses and counterexamples -/

/-- A bio extraction carrying an email. -/
def cbW : Contacts := ⟨some ("a@x.co"), none, none, none, none, none, none⟩

/-- An extraction with every field absent. -/
def c1W : Contacts := ⟨none, none, none, none, none, none, none⟩

/-- An extraction carrying a (different) email. -/
def c2W : Contacts := ⟨some ("b@y.co"), none, none, none, none, none, none⟩

/-- A user with a truthy bio, blog and profile page. -/
def userW : PyDict := fun k =>
  if k = kBio then some ("hi")
  else if k = kBlog then some ("D1")
  else if k = kHtmlUrl then some ("D2") else none

/-- A scraper whose bio extraction is cbW and whose documents yield c1W for
the blog and c2W for the profile page. -/
def scW : ScraperM :=
  ⟨fun _ => cbW.toDict,
   fun url => if url = "D1" then some (c1W.toDict) else some (c2W.toDict)⟩

/-- A user with no bio but a blog and a profile page. -/
def userW2 : PyDict := fun k =>
  if k = kBlog then some ("D1")
  else if k = kHtmlUrl then some ("D2") else none

/-- A scraper whose documents yield c2W for the blog and c1W for the profile
page. -/
def scW2 : ScraperM :=
  ⟨fun _ => [],
   fun url => if url = "D1" then some (c2W.toDict) else some (c1W.toDict)⟩

/-- A listed user whose login is already in the store. -/
def uAlice : PyDict := fun k => if k = kLogin then some ("alice") else none

/-- A listed user whose login is new. -/
def uBob : PyDict := fun k => if k = kLogin then some ("bob") else none

/-- A new user with one associated document url. -/
def uBobBlog : PyDict := fun k =>
  if k = kLogin then some ("bob")
  else if k = kBlog then some ("http://b.example") else none

/-- A scraper whose every scrape raises. -/
def scFail : ScraperM := ⟨fun _ => [], fun _ => none⟩

/-- A detail oracle that always returns the empty dict. -/
def detailsNone : String → List (String × Option String) := fun _ => []

/-- An existing store holding the row of alice. -/
def baseEx : List Row := [[(("Username"), some ("alice")), (("Name"), some ("A"))]]

/-- A new buffer holding a raw row for the same identity key alice. -/
def newEx : List Row := [[(("login"), some ("alice"))]]

/-! ## Helper lemmas for the rate-limit computation -/

theorem rateLimitWait_formula (ra rv now : Int) (hra : 0 ≤ ra) (hnow : 1 ≤ now) :
    rateLimitWait (some ra) (some rv) now = max 0 (max ra (rv - now + 1)) := by
  simp only [rateLimitWait, Option.getD_some]
  by_cases h0 : rv = 0
  · subst h0
    rw [if_neg (by simp)]
    rw [max_eq_left (by omega : (0 : Int) - now + 1 ≤ ra)]
    exact (max_eq_right hra).symm
  · rw [if_pos h0]
    exact (max_eq_right (le_trans hra (le_max_left _ _))).symm

/-! ## Claim theorems about the client -/

/-- C6: on a rate-limited fetch (HTTP 403 or 429) with both headers present
and non-negative and a positive clock, the computed wait equals
max(retryAfter, reset - now + 1) floored at 0, and the fetch returns zero
items together with the same cursor; whenever that wait is positive the
paginator sleeps and retries the very same url. -/
theorem c6_rate_limit_wait (url : String) (users : List PyDict) (nxt : Option String)
    (st : Nat) (ra rv now : Int) (hst : st = 403 ∨ st = 429)
    (hra : 0 ≤ ra) (hnow : 1 ≤ now) :
    fetch_stargazers_page url (some ⟨st, users, nxt, some ra, some rv⟩) now
      = ([], some url, max 0 (max ra (rv - now + 1)))
    ∧ (0 < max 0 (max ra (rv - now + 1)) →
        pageStep url (some ⟨st, users, nxt, some ra, some rv⟩) now
          = PageAction.sleepRetry (max 0 (max ra (rv - now + 1))) url) := by
  have hne : st ≠ 200 := by rcases hst with h | h <;> omega
  have hfetch : fetch_stargazers_page url (some ⟨st, users, nxt, some ra, some rv⟩) now
      = ([], some url, max 0 (max ra (rv - now + 1))) := by
    simp only [fetch_stargazers_page]
    rw [if_neg hne, if_pos hst, rateLimitWait_formula ra rv now hra hnow]
  refine ⟨hfetch, fun hpos => ?_⟩
  simp only [pageStep, hfetch]
  rw [if_pos hpos]

/-- Witness for c6_rate_limit_wait at a concrete 403 response. -/
theorem c6_witness :
    fetch_stargazers_page ("u") (some ⟨403, [], none, some 30, some 100⟩) 50
      = ([], some ("u"), 51)
    ∧ pageStep ("u") (some ⟨403, [], none, some 30, some 100⟩) 50
      = PageAction.sleepRetry 51 ("u") := by
  have h := c6_rate_limit_wait ("u") [] none 403 30 100 50 (Or.inl rfl)
    (by omega) (by omega)
  have hm : max (0 : Int) (max 30 (100 - 50 + 1)) = 51 := by decide
  refine ⟨?_, ?_⟩
  · rw [h.1, hm]
  · have h2 := h.2 (by rw [hm]; omega)
    rw [hm] at h2
    exact h2

/-- C7 counterexample: a fatal (non-retryable) HTTP error produces exactly the
same return value and the same loop action as normal completion (a 200 page
with no users and no next link), so the caller has no signal to tell them
apart. -/
theorem c7_counterexample :
    fetch_stargazers_page ("u") (some ⟨500, [], none, none, none⟩) 0
      = fetch_stargazers_page ("u") (some ⟨200, [], none, none, none⟩) 0
    ∧ pageStep ("u") (some ⟨500, [], none, none, none⟩) 0
      = pageStep ("u") (some ⟨200, [], none, none, none⟩) 0
    ∧ pageStep ("u") (some ⟨500, [], none, none, none⟩) 0 = PageAction.finished := by
  refine ⟨rfl, rfl, rfl⟩

/-- C7 amended: on a fatal HTTP status (not 200, 403 or 429) the fetch returns
zero items, no cursor and zero wait, which is exactly the triple returned for
normal completion; both make the pagination loop finish, with no
distinguishable fatal signal. -/
theorem c7_fatal_indistinguishable (url : String) (now : Int) (st : Nat)
    (users : List PyDict) (nxt : Option String) (ra rv : Option Int)
    (h200 : st ≠ 200) (h403 : st ≠ 403) (h429 : st ≠ 429) :
    fetch_stargazers_page url (some ⟨st, users, nxt, ra, rv⟩) now = ([], none, 0)
    ∧ pageStep url (some ⟨st, users, nxt, ra, rv⟩) now = PageAction.finished
    ∧ fetch_stargazers_page url (some ⟨200, [], none, ra, rv⟩) now = ([], none, 0)
    ∧ pageStep url (some ⟨200, [], none, ra, rv⟩) now = PageAction.finished := by
  have h1 : fetch_stargazers_page url (some ⟨st, users, nxt, ra, rv⟩) now
      = ([], none, 0) := by
    simp only [fetch_stargazers_page]
    rw [if_neg h200, if_neg (not_or.mpr ⟨h403, h429⟩)]
  have h2 : fetch_stargazers_page url (some ⟨200, [], none, ra, rv⟩) now
      = ([], none, 0) := rfl
  refine ⟨h1, ?_, h2, ?_⟩
  · simp only [pageStep, h1]
    rfl
  · rfl

/-- Witness for c7_fatal_indistinguishable at a concrete 500 response. -/
theorem c7_witness :
    fetch_stargazers_page ("u") (some ⟨500, [], none, none, none⟩) 7 = ([], none, 0)
    ∧ pageStep ("u") (some ⟨500, [], none, none, none⟩) 7 = PageAction.finished := by
  have h := c7_fatal_indistinguishable ("u") 7 500 [] none none none
    (by omega) (by omega) (by omega)
  exact ⟨h.1, h.2.1⟩

/-- C8: a network error (RequestException) makes the fetch return zero items,
the same cursor and a fixed 5 second wait, and the pagination loop sleeps 5
seconds and retries the very same page url instead of skipping it or treating
it as completion. -/
theorem c8_transient_retry (url : String) (now : Int) :
    fetch_stargazers_page url none now = ([], some url, 5)
    ∧ pageStep url none now = PageAction.sleepRetry 5 url :=
  ⟨rfl, rfl⟩

/-- C10: get_user_details never propagates a failure to its caller: a network
error (resp = none) yields the empty dict, a 200 yields the parsed body, and
every non-200 status yields the empty dict. Totality of the Lean function
models the absence of an uncaught exception. -/
theorem c10_user_details_total :
    get_user_details none = []
    ∧ (∀ r : DetailResponse, r.status = 200 → get_user_details (some r) = r.json)
    ∧ (∀ r : DetailResponse, r.status ≠ 200 → get_user_details (some r) = []) := by
  refine ⟨rfl, fun r h => ?_, fun r h => ?_⟩
  · simp only [get_user_details]
    rw [if_pos h]
  · simp only [get_user_details]
    rw [if_neg h]

/-- Witness for c10_user_details_total at concrete responses. -/
theorem c10_witness :
    get_user_details (some ⟨200, [(("login" : String), some ("octocat"))]⟩)
      = [(("login" : String), some ("octocat"))]
    ∧ get_user_details (some ⟨404, [(("login" : String), some ("octocat"))]⟩) = [] := by
  constructor
  · exact c10_user_details_total.2.1 ⟨200, [(("login" : String), some ("octocat"))]⟩ rfl
  · exact c10_user_details_total.2.2 ⟨404, [(("login" : String), some ("octocat"))]⟩ (by decide)

/-! ## First-match lemmas for findall -/

theorem findallAux_nil_of_none (re : List Atom) (s : List Char)
    (h : ∀ i, matchAtoms re (List.drop i s) = none) :
    findallAux re (s.length + 1) s = [] := by
  induction s with
  | nil =>
    have h0 := h 0
    rw [List.drop_zero] at h0
    simp only [List.length_nil, findallAux, h0]
  | cons c s2 ih =>
    have h0 := h 0
    rw [List.drop_zero] at h0
    have ih2 := ih (fun i => by
      have hi := h (i + 1)
      rwa [List.drop_succ_cons] at hi)
    simp only [List.length_cons, findallAux, h0]
    exact ih2

theorem findallAux_head_of_first (re : List Atom) (s : List Char) :
    ∀ (i : Nat) (r : MRes), matchAtoms re (List.drop i s) = some r →
      (∀ j, j < i → matchAtoms re (List.drop j s) = none) →
      (findallAux re (s.length + 1) s).head? = some (r.consumed, r.group) := by
  induction s with
  | nil =>
    intro i r hr _
    rw [List.drop_nil] at hr
    simp only [List.length_nil, findallAux, hr]
    rfl
  | cons c s2 ih =>
    intro i r hr hmin
    match i with
    | 0 =>
      rw [List.drop_zero] at hr
      simp only [List.length_cons, findallAux, hr]
      rfl
    | i2 + 1 =>
      have h0 := hmin 0 (Nat.succ_pos i2)
      rw [List.drop_zero] at h0
      rw [List.drop_succ_cons] at hr
      have hrec := ih i2 r hr (fun j hj => by
        have hmj := hmin (j + 1) (Nat.succ_lt_succ hj)
        rwa [List.drop_succ_cons] at hmj)
      simp only [List.length_cons, findallAux, h0]
      exact hrec

theorem head_map_first (re : List Atom) (fmt : List Char × Option (List Char) → String)
    (t : String) : FieldFirstMatch re fmt t (((findall re t.data).head?).map fmt) := by
  constructor
  · constructor
    · intro hv i
      by_contra hne
      have hP : ∃ n, (matchAtoms re (List.drop n t.data)).isSome = true := by
        refine ⟨i, ?_⟩
        cases hm : matchAtoms re (List.drop i t.data) with
        | none => exact absurd hm hne
        | some r => rfl
      obtain ⟨r, hr⟩ := Option.isSome_iff_exists.mp (Nat.find_spec hP)
      have hmin : ∀ j, j < Nat.find hP → matchAtoms re (List.drop j t.data) = none := by
        intro j hj
        have hnot := Nat.find_min hP hj
        exact Option.not_isSome_iff_eq_none.mp (fun hs => hnot hs)
      have hhead := findallAux_head_of_first re t.data (Nat.find hP) r hr hmin
      rw [show findall re t.data = findallAux re (t.data.length + 1) t.data from rfl,
        hhead] at hv
      simp at hv
    · intro h
      have hnil : findallAux re (t.data.length + 1) t.data = [] :=
        findallAux_nil_of_none re t.data h
      rw [show findall re t.data = findallAux re (t.data.length + 1) t.data from rfl, hnil]
      rfl
  · intro i r hr hmin
    have hhead := findallAux_head_of_first re t.data i r hr hmin
    rw [show findall re t.data = findallAux re (t.data.length + 1) t.data from rfl, hhead]
    rfl

/-! ## The extraction values as first matches -/

theorem dlookup_cons_ne (k1 : String) (v : Option String)
    (d : List (String × Option String)) (k : String) (h : (k1 == k) = false) :
    dlookup ((k1, v) :: d) k = dlookup d k := by
  simp only [dlookup, List.find?, h]

theorem dlookup_cons_eq (k1 : String) (v : Option String)
    (d : List (String × Option String)) (k : String) (h : (k1 == k) = true) :
    dlookup ((k1, v) :: d) k = v := by
  simp only [dlookup, List.find?, h]


theorem extract_email_eq (t : String) :
    dlookup (extract_from_text (some t)) kScrapedEmail
      = ((findall email_regex t.data).head?).map emailFmt := by
  by_cases ht : t = ""
  · subst ht
    have h2 : (findall email_regex (String.data (""))).head? = none := by decide
    rw [show dlookup (extract_from_text (some (""))) kScrapedEmail = none from rfl, h2]
    rfl
  · rw [show extract_from_text (some t) = if t = "" then emptyContacts else extractBody t
      from rfl, if_neg ht]
    simp only [extractBody]
    rw [dlookup_cons_eq _ _ _ _ (by decide)]
    simp only [re_findall_whole]
    generalize findall email_regex t.data = L
    cases L with
    | nil => rfl
    | cons a L2 => rfl


theorem extract_linkedin_eq (t : String) :
    dlookup (extract_from_text (some t)) kScrapedLinkedin
      = ((findall linkedin_regex t.data).head?).map linkedinFmt := by
  by_cases ht : t = ""
  · subst ht
    have h2 : (findall linkedin_regex (String.data (""))).head? = none := by decide
    rw [show dlookup (extract_from_text (some (""))) kScrapedLinkedin = none from rfl, h2]
    rfl
  · rw [show extract_from_text (some t) = if t = "" then emptyContacts else extractBody t
      from rfl, if_neg ht]
    simp only [extractBody]
    rw [dlookup_cons_ne _ _ _ _ (by decide),
      dlookup_cons_eq _ _ _ _ (by decide)]
    simp only [re_findall_whole]
    generalize findall linkedin_regex t.data = L
    cases L with
    | nil => rfl
    | cons a L2 => rfl


theorem extract_twitter_eq (t : String) :
    dlookup (extract_from_text (some t)) kScrapedTwitter
      = ((findall twitter_regex t.data).head?).map twitterFmt := by
  by_cases ht : t = ""
  · subst ht
    have h2 : (findall twitter_regex (String.data (""))).head? = none := by decide
    rw [show dlookup (extract_from_text (some (""))) kScrapedTwitter = none from rfl, h2]
    rfl
  · rw [show extract_from_text (some t) = if t = "" then emptyContacts else extractBody t
      from rfl, if_neg ht]
    simp only [extractBody]
    rw [dlookup_cons_ne _ _ _ _ (by decide),
      dlookup_cons_ne _ _ _ _ (by decide),
      dlookup_cons_eq _ _ _ _ (by decide)]
    simp only [re_findall_group]
    generalize findall twitter_regex t.data = L
    cases L with
    | nil => rfl
    | cons a L2 => rfl


theorem extract_facebook_eq (t : String) :
    dlookup (extract_from_text (some t)) kScrapedFacebook
      = ((findall facebook_regex t.data).head?).map facebookFmt := by
  by_cases ht : t = ""
  · subst ht
    have h2 : (findall facebook_regex (String.data (""))).head? = none := by decide
    rw [show dlookup (extract_from_text (some (""))) kScrapedFacebook = none from rfl, h2]
    rfl
  · rw [show extract_from_text (some t) = if t = "" then emptyContacts else extractBody t
      from rfl, if_neg ht]
    simp only [extractBody]
    rw [dlookup_cons_ne _ _ _ _ (by decide),
      dlookup_cons_ne _ _ _ _ (by decide),
      dlookup_cons_ne _ _ _ _ (by decide),
      dlookup_cons_eq _ _ _ _ (by decide)]
    simp only [re_findall_group]
    generalize findall facebook_regex t.data = L
    cases L with
    | nil => rfl
    | cons a L2 => rfl


theorem extract_instagram_eq (t : String) :
    dlookup (extract_from_text (some t)) kScrapedInstagram
      = ((findall instagram_regex t.data).head?).map instagramFmt := by
  by_cases ht : t = ""
  · subst ht
    have h2 : (findall instagram_regex (String.data (""))).head? = none := by decide
    rw [show dlookup (extract_from_text (some (""))) kScrapedInstagram = none from rfl, h2]
    rfl
  · rw [show extract_from_text (some t) = if t = "" then emptyContacts else extractBody t
      from rfl, if_neg ht]
    simp only [extractBody]
    rw [dlookup_cons_ne _ _ _ _ (by decide),
      dlookup_cons_ne _ _ _ _ (by decide),
      dlookup_cons_ne _ _ _ _ (by decide),
      dlookup_cons_ne _ _ _ _ (by decide),
      dlookup_cons_eq _ _ _ _ (by decide)]
    simp only [re_findall_group]
    generalize findall instagram_regex t.data = L
    cases L with
    | nil => rfl
    | cons a L2 => rfl


theorem extract_youtube_eq (t : String) :
    dlookup (extract_from_text (some t)) kScrapedYoutube
      = ((findall youtube_regex t.data).head?).map youtubeFmt := by
  by_cases ht : t = ""
  · subst ht
    have h2 : (findall youtube_regex (String.data (""))).head? = none := by decide
    rw [show dlookup (extract_from_text (some (""))) kScrapedYoutube = none from rfl, h2]
    rfl
  · rw [show extract_from_text (some t) = if t = "" then emptyContacts else extractBody t
      from rfl, if_neg ht]
    simp only [extractBody]
    rw [dlookup_cons_ne _ _ _ _ (by decide),
      dlookup_cons_ne _ _ _ _ (by decide),
      dlookup_cons_ne _ _ _ _ (by decide),
      dlookup_cons_ne _ _ _ _ (by decide),
      dlookup_cons_ne _ _ _ _ (by decide),
      dlookup_cons_eq _ _ _ _ (by decide)]
    simp only [re_findall_group]
    generalize findall youtube_regex t.data = L
    cases L with
    | nil => rfl
    | cons a L2 => rfl


theorem extract_bluesky_eq (t : String) :
    dlookup (extract_from_text (some t)) kScrapedBluesky
      = ((findall bluesky_regex t.data).head?).map blueskyFmt := by
  by_cases ht : t = ""
  · subst ht
    have h2 : (findall bluesky_regex (String.data (""))).head? = none := by decide
    rw [show dlookup (extract_from_text (some (""))) kScrapedBluesky = none from rfl, h2]
    rfl
  · rw [show extract_from_text (some t) = if t = "" then emptyContacts else extractBody t
      from rfl, if_neg ht]
    simp only [extractBody]
    rw [dlookup_cons_ne _ _ _ _ (by decide),
      dlookup_cons_ne _ _ _ _ (by decide),
      dlookup_cons_ne _ _ _ _ (by decide),
      dlookup_cons_ne _ _ _ _ (by decide),
      dlookup_cons_ne _ _ _ _ (by decide),
      dlookup_cons_ne _ _ _ _ (by decide),
      dlookup_cons_eq _ _ _ _ (by decide)]
    simp only [re_findall_group]
    generalize findall bluesky_regex t.data = L
    cases L with
    | nil => rfl
    | cons a L2 => rfl

/-- C2: for every input text, each of the seven contact fields of
extract_from_text is governed by its own pattern alone: the field is absent
exactly when the pattern matches nowhere in the text, and otherwise it holds
the formatted value of the match at the first matching position in document
order. -/
theorem c2_first_match_wins (t : String) :
    FieldFirstMatch email_regex emailFmt t
      (dlookup (extract_from_text (some t)) kScrapedEmail)
    ∧ FieldFirstMatch linkedin_regex linkedinFmt t
      (dlookup (extract_from_text (some t)) kScrapedLinkedin)
    ∧ FieldFirstMatch twitter_regex twitterFmt t
      (dlookup (extract_from_text (some t)) kScrapedTwitter)
    ∧ FieldFirstMatch facebook_regex facebookFmt t
      (dlookup (extract_from_text (some t)) kScrapedFacebook)
    ∧ FieldFirstMatch instagram_regex instagramFmt t
      (dlookup (extract_from_text (some t)) kScrapedInstagram)
    ∧ FieldFirstMatch youtube_regex youtubeFmt t
      (dlookup (extract_from_text (some t)) kScrapedYoutube)
    ∧ FieldFirstMatch bluesky_regex blueskyFmt t
      (dlookup (extract_from_text (some t)) kScrapedBluesky) := by
  refine ⟨?_, ?_, ?_, ?_, ?_, ?_, ?_⟩
  · rw [extract_email_eq]; exact head_map_first email_regex emailFmt t
  · rw [extract_linkedin_eq]; exact head_map_first linkedin_regex linkedinFmt t
  · rw [extract_twitter_eq]; exact head_map_first twitter_regex twitterFmt t
  · rw [extract_facebook_eq]; exact head_map_first facebook_regex facebookFmt t
  · rw [extract_instagram_eq]; exact head_map_first instagram_regex instagramFmt t
  · rw [extract_youtube_eq]; exact head_map_first youtube_regex youtubeFmt t
  · rw [extract_bluesky_eq]; exact head_map_first bluesky_regex blueskyFmt t

/-- Witness for c2_first_match_wins: on the text "see a@b.cd" the first (and
only) email match starts at position 4 and the field holds it. -/
theorem c2_witness :
    dlookup (extract_from_text (some ("see a@b.cd"))) kScrapedEmail = some ("a@b.cd") := by
  have h := (c2_first_match_wins ("see a@b.cd")).1.2 4 ⟨(("a@b.cd").data), none, []⟩
    (by decide) (by decide)
  exact h

/-- C9: extract_from_text always returns exactly the seven scraped keys in
their fixed order, and on an absent or empty text every one of the seven
values is none. -/
theorem c9_fixed_keys :
    (∀ t : Option String, (extract_from_text t).map Prod.fst
      = [kScrapedEmail, kScrapedLinkedin, kScrapedTwitter, kScrapedFacebook,
         kScrapedInstagram, kScrapedYoutube, kScrapedBluesky])
    ∧ extract_from_text none = emptyContacts
    ∧ extract_from_text (some ("")) = emptyContacts
    ∧ emptyContacts
      = [(kScrapedEmail, none), (kScrapedLinkedin, none), (kScrapedTwitter, none),
         (kScrapedFacebook, none), (kScrapedInstagram, none), (kScrapedYoutube, none),
         (kScrapedBluesky, none)] := by
  refine ⟨fun t => ?_, rfl, rfl, rfl⟩
  match t with
  | none => rfl
  | some t2 =>
    by_cases ht : t2 = ""
    · subst ht; rfl
    · rw [show extract_from_text (some t2) = if t2 = "" then emptyContacts else extractBody t2
        from rfl, if_neg ht]
      rfl

/-! ## Merge lemmas for process_user -/

theorem mergeScraped_cons (u : PyDict) (e : String × Option String)
    (rest : List (String × Option String)) :
    mergeScraped u (e :: rest)
      = mergeScraped (if truthy e.2 then dictSet u e.1 e.2 else u) rest := rfl

theorem mergeScraped_or (u : PyDict) (res : List (String × Option String)) (k : String) :
    mergeScraped u res k = u k ∨ truthy (mergeScraped u res k) = true := by
  induction res generalizing u with
  | nil => exact Or.inl rfl
  | cons e rest ih =>
    rw [mergeScraped_cons]
    rcases ih (if truthy e.2 then dictSet u e.1 e.2 else u) with h | h
    · rw [h]
      by_cases he : truthy e.2
      · rw [if_pos he]
        by_cases hk : k = e.1
        · right
          show truthy (if k = e.1 then e.2 else u k) = true
          rw [if_pos hk]
          exact he
        · left
          show (if k = e.1 then e.2 else u k) = u k
          rw [if_neg hk]
      · rw [if_neg he]
        exact Or.inl rfl
    · exact Or.inr h

theorem mergeScraped_notin (u : PyDict) (res : List (String × Option String)) (k : String)
    (h : ¬ k ∈ res.map Prod.fst) : mergeScraped u res k = u k := by
  induction res generalizing u with
  | nil => rfl
  | cons e rest ih =>
    have hk : k ≠ e.1 := by
      intro hk
      exact h (by rw [List.map_cons, hk]; exact List.mem_cons_self _ _)
    have hrest : ¬ k ∈ rest.map Prod.fst := by
      intro hmem
      exact h (by rw [List.map_cons]; exact List.mem_cons_of_mem _ hmem)
    rw [mergeScraped_cons, ih _ hrest]
    by_cases he : truthy e.2
    · rw [if_pos he]
      show (if k = e.1 then e.2 else u k) = u k
      rw [if_neg hk]
    · rw [if_neg he]

theorem mergeScraped_toDict_email (u : PyDict) (c : Contacts) :
    mergeScraped u c.toDict (kScrapedEmail)
      = if truthy c.scraped_email then c.scraped_email else u (kScrapedEmail) := by
  rw [show c.toDict = (kScrapedEmail, c.scraped_email) ::
      [(kScrapedLinkedin, c.scraped_linkedin), (kScrapedTwitter, c.scraped_twitter),
       (kScrapedFacebook, c.scraped_facebook), (kScrapedInstagram, c.scraped_instagram),
       (kScrapedYoutube, c.scraped_youtube), (kScrapedBluesky, c.scraped_bluesky)] from rfl]
  rw [mergeScraped_cons]
  rw [mergeScraped_notin _ _ _ (by
    simp only [List.map_cons, List.map_nil]
    decide)]
  by_cases he : truthy c.scraped_email
  · rw [if_pos he, if_pos he]
    show (if kScrapedEmail = kScrapedEmail then c.scraped_email else u (kScrapedEmail))
      = c.scraped_email
    rw [if_pos rfl]
  · rw [if_neg he, if_neg he]

theorem dictUpdate_toDict_email (u : PyDict) (c : Contacts) :
    dictUpdate u c.toDict (kScrapedEmail) = c.scraped_email := rfl

theorem dictUpdate_toDict_blog (u : PyDict) (c : Contacts) :
    dictUpdate u c.toDict (kBlog) = u (kBlog) := rfl

theorem dictUpdate_toDict_html (u : PyDict) (c : Contacts) :
    dictUpdate u c.toDict (kHtmlUrl) = u (kHtmlUrl) := rfl

theorem dlookup_toDict_email (c : Contacts) :
    dlookup c.toDict (kScrapedEmail) = c.scraped_email := rfl

/-- C1: the merge of the per-source extraction results. First, generally, the
truthy-overwrite loop changes the value of a field only to a truthy value,
so a later source never erases an earlier one with an empty or absent value.
Second, with the sources in order bio, blog document, profile-page document:
when the bio yields email A, document 1 yields no email and document 2 yields
email B, the final record has email B; and when document 1 yields email A and
document 2 yields no email, the final record keeps email A. -/
theorem c1_merge_precedence :
    (∀ (u : PyDict) (res : List (String × Option String)) (k : String),
        mergeScraped u res k = u k ∨ truthy (mergeScraped u res k) = true)
    ∧ (∀ (user : PyDict) (sc : ScraperM) (cb c1 c2 : Contacts) (A B bt d1 d2 : String),
        A ≠ "" → B ≠ "" → bt ≠ "" → d1 ≠ "" → d2 ≠ "" →
        user (kBio) = some bt → user (kBlog) = some d1 → user (kHtmlUrl) = some d2 →
        sc.extract (some bt) = cb.toDict → cb.scraped_email = some A →
        sc.scrape d1 = some (c1.toDict) → c1.scraped_email = none →
        sc.scrape d2 = some (c2.toDict) → c2.scraped_email = some B →
        process_user user sc (kScrapedEmail) = some B)
    ∧ (∀ (user : PyDict) (sc : ScraperM) (c1 c2 : Contacts) (A d1 d2 : String),
        A ≠ "" → d1 ≠ "" → d2 ≠ "" →
        user (kBio) = none → user (kBlog) = some d1 → user (kHtmlUrl) = some d2 →
        sc.scrape d1 = some (c1.toDict) → c1.scraped_email = some A →
        sc.scrape d2 = some (c2.toDict) → c2.scraped_email = none →
        process_user user sc (kScrapedEmail) = some A) := by
  refine ⟨mergeScraped_or, ?_, ?_⟩
  · intro user sc cb c1 c2 A B bt d1 d2 hA hB hbt hd1 hd2 hbio hblog hhtml hex hcbe hs1 hc1e hs2 hc2e
    have hu1 : bio_step user sc = dictUpdate user cb.toDict := by
      simp only [bio_step, hbio]
      rw [if_pos (by simpa using hbt), hex]
      rw [if_pos (by
        rw [dlookup_toDict_email, hcbe]
        simp [truthy, hA])]
    have hurls : scrape_urls (bio_step user sc) = [d1, d2] := by
      rw [hu1]
      simp only [scrape_urls, dictUpdate_toDict_blog, dictUpdate_toDict_html, hblog, hhtml]
      rw [if_pos (by simpa using hd1), if_pos (by simpa using hd2)]
      rfl
    simp only [process_user]
    rw [hurls]
    simp only [List.foldl_cons, List.foldl_nil, hs1, hs2, Option.getD_some]
    rw [mergeScraped_toDict_email, hc2e]
    rw [if_pos (by simp [truthy, hB])]
  · intro user sc c1 c2 A d1 d2 hA hd1 hd2 hbio hblog hhtml hs1 hc1e hs2 hc2e
    have hu1 : bio_step user sc = user := by
      simp only [bio_step, hbio]
    have hurls : scrape_urls (bio_step user sc) = [d1, d2] := by
      rw [hu1]
      simp only [scrape_urls, hblog, hhtml]
      rw [if_pos (by simpa using hd1), if_pos (by simpa using hd2)]
      rfl
    simp only [process_user]
    rw [hurls]
    simp only [List.foldl_cons, List.foldl_nil, hs1, hs2, Option.getD_some]
    rw [mergeScraped_toDict_email, hc2e]
    rw [show truthy none = false from rfl, if_neg (by simp)]
    rw [mergeScraped_toDict_email, hc1e]
    rw [if_pos (by simp [truthy, hA])]

/-- Witness for c1_merge_precedence: both merge-precedence scenarios at
concrete users, scrapers and extraction results. -/
theorem c1_witness :
    process_user userW scW (kScrapedEmail) = some ("b@y.co")
    ∧ process_user userW2 scW2 (kScrapedEmail) = some ("b@y.co") := by
  constructor
  · exact c1_merge_precedence.2.1 userW scW cbW c1W c2W ("a@x.co") ("b@y.co") ("hi")
      ("D1") ("D2") (by decide) (by decide) (by decide) (by decide) (by decide)
      rfl rfl rfl rfl rfl rfl rfl (by rfl) rfl
  · exact c1_merge_precedence.2.2 userW2 scW2 c2W c1W ("b@y.co") ("D1") ("D2")
      (by decide) (by decide) (by decide) rfl rfl rfl rfl rfl (by rfl) rfl

/-! ## Skip-on-sight and the absence of a retry queue -/

/-- C4: every user admitted by the main loop has a login outside the key set
loaded from the store at startup; a listed entity whose Identity Key is
already stored is never enqueued for processing. -/
theorem c4_skip_on_sight (existing : List String) (limit : Option Nat)
    (users : List PyDict) (fetched : Nat) (u : PyDict)
    (hu : u ∈ mainEnqueue existing limit users fetched)
    (s : String) (hs : u (kLogin) = some s) :
    existing.contains s = false := by
  revert fetched
  induction users with
  | nil =>
    intro fetched hu
    simp [mainEnqueue] at hu
  | cons v us ih =>
    intro fetched hu
    simp only [mainEnqueue] at hu
    by_cases hl : limitHit limit fetched
    · rw [if_pos hl] at hu
      simp at hu
    · rw [if_neg hl] at hu
      by_cases hskip : loginSkip existing v = true
      · rw [if_pos hskip] at hu
        exact ih fetched hu
      · rw [if_neg hskip] at hu
        rcases List.mem_cons.mp hu with h | h
        · subst h
          simp only [loginSkip, hs] at hskip
          cases hc : existing.contains s
          · rfl
          · exact absurd hc hskip
        · exact ih (fetched + 1) h

/-- Witness for c4_skip_on_sight: with the store holding alice, the listing
[alice, bob] admits exactly bob, whose login is not among the stored keys. -/
theorem c4_witness :
    uBob ∈ mainEnqueue [("alice")] none [uAlice, uBob] 0
    ∧ (([("alice")] : List String).contains ("bob")) = false := by
  have hmem : uBob ∈ mainEnqueue [("alice")] none [uAlice, uBob] 0 := by
    show uBob ∈ [uBob]
    exact List.mem_singleton_self uBob
  exact ⟨hmem, c4_skip_on_sight [("alice")] none [uAlice, uBob] 0 uBob hmem ("bob") rfl⟩

theorem foldl_merge_fail (sc : ScraperM) (hfail : ∀ url, sc.scrape url = none)
    (urls : List String) (u : PyDict) :
    urls.foldl (fun acc url => mergeScraped acc ((sc.scrape url).getD [])) u = u := by
  induction urls generalizing u with
  | nil => rfl
  | cons a rest ih =>
    rw [List.foldl_cons, hfail a]
    exact ih u

/-- C5 counterexample: an entity with one associated document whose every
scrape fails is handed to the result list after a single pass that attempted
its one url exactly once, with no contact fields - there is no retry count
and no re-enqueueing, so it is not abandoned after 3 attempts. -/
theorem c5_counterexample :
    scrape_urls (bio_step uBobBlog scFail) = [("http://b.example" : String)]
    ∧ (run_pipeline [] none [uBobBlog] detailsNone scFail).map
        (fun r => r (kScrapedEmail)) = [none]
    ∧ (run_pipeline [] none [uBobBlog] detailsNone scFail).length = 1
    ∧ (scrape_urls (bio_step uBobBlog scFail)).length ≠ 3 := by
  refine ⟨rfl, rfl, rfl, by decide⟩

/-- C5 amended: failed enrichment is never retried. Whenever every scrape
fails, the run output is exactly one record per admitted user, produced by a
single pass (detail step then bio step) in which the failed scrapes
contributed nothing. -/
theorem c5_no_retry (existing : List String) (limit : Option Nat) (users : List PyDict)
    (details : String → List (String × Option String)) (sc : ScraperM)
    (hfail : ∀ url, sc.scrape url = none) :
    run_pipeline existing limit users details sc
      = (mainEnqueue existing limit users 0).map
          (fun u => bio_step (details_step details u) sc)
    ∧ (run_pipeline existing limit users details sc).length
      = (mainEnqueue existing limit users 0).length := by
  have hpu : ∀ raw, process_full_user details sc raw
      = bio_step (details_step details raw) sc := by
    intro raw
    simp only [process_full_user, process_user]
    exact foldl_merge_fail sc hfail _ _
  constructor
  · simp only [run_pipeline]
    exact List.map_congr_left (fun u _ => hpu u)
  · simp only [run_pipeline, List.length_map]

/-- Witness for c5_no_retry at the concrete always-failing scraper. -/
theorem c5_witness :
    (∀ url, scFail.scrape url = none)
    ∧ run_pipeline [] none [uBobBlog] detailsNone scFail
        = [bio_step (details_step detailsNone uBobBlog) scFail] := by
  refine ⟨fun _ => rfl, ?_⟩
  have h := c5_no_retry [] none [uBobBlog] detailsNone scFail (fun _ => rfl)
  rw [h.1]
  rfl

/-! ## The flush is a plain concatenation -/

/-- C3 counterexample: with the store already holding the key alice and the
new buffer holding a row with the same key, the written output is not the
first-occurrence deduplication of (existing ++ new) that the claim describes:
the key alice appears twice in what is written. -/
theorem c3_counterexample :
    save_progress baseEx newEx ≠ dedupByKeyFirst (baseEx ++ convert_rows newEx)
    ∧ (save_progress baseEx newEx).map rowKey = [some ("alice"), some ("alice")] := by
  constructor
  · decide
  · rfl

/-- C3 amended: every flush writes exactly the existing rows first, in their
original order, followed by the converted new rows in completion order, with
no deduplication: for any key, the written occurrence count is the sum of the
counts in the existing rows and in the converted new rows, so a key present
in both sides appears more than once. -/
theorem c3_concat_no_dedup (base_df : List Row) (new_users : List Row) (k : Option String) :
    save_progress base_df new_users = base_df ++ convert_rows new_users
    ∧ (save_progress base_df new_users).map rowKey
      = base_df.map rowKey ++ (convert_rows new_users).map rowKey
    ∧ (save_progress base_df new_users).countP (fun r => rowKey r == k)
      = base_df.countP (fun r => rowKey r == k)
        + (convert_rows new_users).countP (fun r => rowKey r == k) := by
  refine ⟨rfl, ?_, ?_⟩
  · simp only [save_progress, List.map_append]
  · simp only [save_progress, List.countP_append]
